import Mathlib

/-
Shallow embedding of the talos interactive installer wizard
(internal/pkg/tui/installer/state.go) and of the DiskSize YAML codec
(pkg/machinery/config/types/v1alpha1/v1alpha1_types.go), together with
theorems settling the specification claims about them.

External collaborators (the Connection, the process-wide constants, the
go-humanize library and the generated documentation describe-strings) are
modelled as explicit parameters, exactly at the boundary the spec draws.
-/

namespace Talos

/-- Machine type enumeration (machine.TypeInit / TypeControlPlane / TypeJoin),
as referenced by the installer through machineapi.MachineConfig_MachineType. -/
inductive MachineType where
  | init
  | controlPlane
  | join
deriving Repr, DecidableEq

/-- machineapi.CNIConfig: name of the CNI plus manifest URLs. -/
structure CNIConfig where
  name : String
  urls : List String
deriving Repr, DecidableEq

/-- machineapi.NetworkConfig (the field the wizard binds: Hostname). -/
structure NetworkConfig where
  hostname : String
deriving Repr, DecidableEq

/-- machineapi.InstallConfig (fields the wizard binds: InstallImage, InstallDisk). -/
structure InstallConfig where
  installImage : String
  installDisk : String
deriving Repr, DecidableEq

/-- machineapi.MachineConfig as populated by the wizard. -/
structure MachineConfig where
  type : MachineType
  networkConfig : NetworkConfig
  kubernetesVersion : String
  installConfig : InstallConfig
deriving Repr, DecidableEq

/-- machineapi.ControlPlaneConfig (field the wizard binds: Endpoint). -/
structure ControlPlaneConfig where
  endpoint : String
deriving Repr, DecidableEq

/-- machineapi.ClusterNetworkConfig (fields: DnsDomain, CniConfig). -/
structure ClusterNetworkConfig where
  dnsDomain : String
  cniConfig : Option CNIConfig
deriving Repr, DecidableEq

/-- machineapi.ClusterConfig as populated by the wizard. -/
structure ClusterConfig where
  name : String
  controlPlane : ControlPlaneConfig
  clusterNetwork : ClusterNetworkConfig
deriving Repr, DecidableEq

/-- machineapi.GenerateConfigurationRequest: the outbound request object. -/
structure GenerateConfigurationRequest where
  configVersion : String
  machineConfig : MachineConfig
  clusterConfig : ClusterConfig
deriving Repr, DecidableEq

/-- machineapi.GenerateConfigurationResponse, opaque to the wizard: it is
returned verbatim. Modelled as an opaque payload. -/
structure GenerateConfigurationResponse where
  payload : String
deriving Repr, DecidableEq

/-- A disk as reported by Connection.Disks(): device name, model, size in bytes. -/
structure Disk where
  deviceName : String
  model : String
  size : Nat
deriving Repr, DecidableEq

/-- The external Connection collaborator at its boundary: topology fact,
the two ambient endpoints, the (one-shot) disk inventory answer, and the
configuration-generation call. -/
structure Connection where
  expandingCluster : Bool
  bootstrapEndpoint : String
  nodeEndpoint : String
  disks : Except String (List Disk)
  generateConfiguration :
    GenerateConfigurationRequest → Except String GenerateConfigurationResponse

/-- The process-wide constants the installer references
(constants.DefaultKubernetesVersion, images.DefaultInstallerImage,
constants.DefaultControlPlanePort, constants.DefaultCNI). -/
structure Constants where
  defaultKubernetesVersion : String
  defaultInstallerImage : String
  defaultControlPlanePort : Nat
  defaultCNI : String

/-- One entry of a flattened variadic choice table: a header row marker
(NewTableHeaders), a string cell, or a machine-type cell. -/
inductive TableEntry where
  | headers (columns : List String)
  | str (value : String)
  | machineType (value : MachineType)
deriving Repr, DecidableEq

/-- The bound location of an item: which field of the request (or of the
wizard state, for the CNI key) the item's pointer addresses. -/
inductive Binding where
  | installImage
  | installDisk
  | machineType
  | clusterName
  | controlPlaneEndpoint
  | kubernetesVersion
  | hostname
  | dnsDomain
  | cni
deriving Repr, DecidableEq

/-- A field item (NewItem): label, help text, bound location, flattened
choice table (empty when the item has no choices). -/
structure Item where
  name : String
  description : String
  binding : Binding
  options : List TableEntry
deriving Repr, DecidableEq

/-- NewItem constructor. -/
def NewItem (name description : String) (binding : Binding)
    (options : List TableEntry) : Item :=
  { name := name, description := description, binding := binding, options := options }

/-- A page (NewPage): title plus ordered items. -/
structure Page where
  title : String
  items : List Item
deriving Repr, DecidableEq

/-- NewPage constructor. -/
def NewPage (title : String) (items : List Item) : Page :=
  { title := title, items := items }

/-- The cilium quick-install manifest URL from the preset table. -/
def ciliumURL : String :=
  "https://raw.githubusercontent.com/cilium/cilium/v1.8/install/kubernetes/quick-install.yaml"

/-- cniPresets: the process-wide read-only preset table, keyed by preset name. -/
def cniPresets : List (String × CNIConfig) :=
  [("cilium", { name := "custom", urls := [ciliumURL] })]

/-- State: the wizard state (pages, the exclusively owned request, the
connection, the selected network-plugin key). -/
structure State where
  pages : List Page
  opts : GenerateConfigurationRequest
  conn : Connection
  cni : String

/-- NewState: builds the default request, derives the control-plane
endpoint from topology, queries the disk inventory (propagating failure),
builds the disk and machine-type choice tables, and assembles the three
pages. `hb` is humanize.Bytes; `describe` looks up the generated
documentation string for (docName, fieldName). -/
def NewState (c : Constants) (hb : Nat → String)
    (describe : String → String → String) (conn : Connection) :
    Except String State :=
  let opts : GenerateConfigurationRequest :=
    { configVersion := "v1alpha1"
      machineConfig :=
        { type := MachineType.init
          networkConfig := { hostname := "" }
          kubernetesVersion := c.defaultKubernetesVersion
          installConfig :=
            { installImage := c.defaultInstallerImage, installDisk := "" } }
      clusterConfig :=
        { name := "talos-default"
          controlPlane := { endpoint := "" }
          clusterNetwork := { dnsDomain := "cluster.local", cniConfig := none } } }
  let endpointHost :=
    if conn.expandingCluster then conn.bootstrapEndpoint else conn.nodeEndpoint
  let opts :=
    { opts with clusterConfig.controlPlane.endpoint :=
        "https://" ++ endpointHost ++ ":" ++ toString c.defaultControlPlanePort }
  match conn.disks with
  | Except.error e => Except.error e
  | Except.ok disks =>
    let installDiskOptions :=
      TableEntry.headers ["device name", "model name", "size"] ::
        disks.flatMap fun d =>
          [TableEntry.str d.deviceName, TableEntry.str d.model, TableEntry.str (hb d.size)]
    let opts :=
      match disks with
      | [] => opts
      | d :: _ => { opts with machineConfig.installConfig.installDisk := d.deviceName }
    let machineTypesAndOpts : List TableEntry × GenerateConfigurationRequest :=
      if conn.expandingCluster then
        ([TableEntry.str "worker", TableEntry.machineType MachineType.join,
          TableEntry.str "control plane", TableEntry.machineType MachineType.controlPlane],
         { opts with machineConfig.type := MachineType.controlPlane })
      else
        ([TableEntry.str "control plane", TableEntry.machineType MachineType.init], opts)
    let machineTypes := machineTypesAndOpts.1
    let opts := machineTypesAndOpts.2
    let networkConfigItems :=
      [NewItem "hostname" (describe "NetworkConfig" "hostname") Binding.hostname [],
       NewItem "dns domain" (describe "ClusterNetworkConfig" "dnsDomain") Binding.dnsDomain []] ++
      (if conn.expandingCluster then []
       else
        [NewItem "type" (describe "ClusterNetworkConfig" "cni") Binding.cni
          [TableEntry.headers ["CNI", "description"],
           TableEntry.str c.defaultCNI, TableEntry.str "CNI used by Talos by default",
           TableEntry.str "cilium", TableEntry.str "Cillium 1.8 installed through quick-install.yaml"]])
    let pages :=
      [NewPage "Installer Params"
        [NewItem "image" (describe "InstallConfig" "image") Binding.installImage [],
         NewItem "install disk" (describe "InstallConfig" "disk") Binding.installDisk
           installDiskOptions],
       NewPage "Machine Config"
        [NewItem "machine type" (describe "MachineConfig" "type") Binding.machineType
           machineTypes,
         NewItem "cluster name" (describe "ClusterConfig" "clusterName") Binding.clusterName [],
         NewItem "control plane endpoint" (describe "ControlPlaneConfig" "endpoint")
           Binding.controlPlaneEndpoint [],
         NewItem "kubernetes version" "Kubernetes version to install."
           Binding.kubernetesVersion []],
       NewPage "Network Config" networkConfigItems]
    Except.ok { pages := pages, opts := opts, conn := conn, cni := c.defaultCNI }

/-- GenConfig: applies the CNI preset substitution when the selected key is
in the preset table, then delegates to the connection. Returns the outbound
request (the mutated opts) together with the verbatim result. -/
def State.GenConfig (s : State) :
    GenerateConfigurationRequest × Except String GenerateConfigurationResponse :=
  let opts :=
    match cniPresets.lookup s.cni with
    | some customCNI =>
        { s.opts with clusterConfig.clusterNetwork.cniConfig := some customCNI }
    | none => s.opts
  (opts, s.conn.generateConfiguration opts)

/-- Finds the item bound to a given location across all pages of the state
(used to talk about a specific field's choice table). -/
def State.findItem (s : State) (b : Binding) : Option Item :=
  (s.pages.flatMap Page.items).find? fun it => it.binding == b

/-- A YAML scalar value as produced by DiskSize.MarshalYAML: either a
human-readable string or the raw integer. -/
inductive YAMLValue where
  | str (s : String)
  | int (n : Nat)
deriving Repr, DecidableEq

/-- DiskSize.MarshalYAML: when the size is a multiple of 1000, humanize it
and emit the string only if parsing it back loses no precision; otherwise
emit the raw integer. `bytesHumanize` is humanize.Bytes and `parseBytes`
is humanize.ParseBytes (external library, passed as parameters). The Go
error result is always nil, so it is omitted. -/
def DiskSize.marshalYAML (bytesHumanize : Nat → String)
    (parseBytes : String → Except String Nat) (ds : Nat) : YAMLValue :=
  if ds % 1000 == 0 then
    let bytesString := bytesHumanize ds
    match parseBytes bytesString with
    | Except.ok parsed =>
        if parsed == ds then YAMLValue.str bytesString else YAMLValue.int ds
    | Except.error _ => YAMLValue.int ds
  else
    YAMLValue.int ds

/-- DiskSize.UnmarshalYAML on an already-decoded YAML string: parse it with
humanize.ParseBytes, propagating failure, and store the parsed value. -/
def DiskSize.unmarshalYAML (parseBytes : String → Except String Nat)
    (size : String) : Except String Nat :=
  match parseBytes size with
  | Except.ok s => Except.ok s
  | Except.error e => Except.error e

/- Concrete fixtures used by the witness theorems. -/

/-- Concrete constants for witnesses, shaped like the real Talos defaults. -/
def testConstants : Constants :=
  { defaultKubernetesVersion := "1.20.5"
    defaultInstallerImage := "ghcr.io/talos-systems/installer:v0.9.0"
    defaultControlPlanePort := 6443
    defaultCNI := "flannel" }

/-- Concrete humanize.Bytes stand-in for witnesses. -/
def testHumanize : Nat → String := fun n => toString n ++ " B"

/-- Concrete documentation describe function for witnesses. -/
def testDescribe : String → String → String := fun doc field => doc ++ "." ++ field

/-- Concrete response returned by the witness connection. -/
def testResponse : GenerateConfigurationResponse := { payload := "yaml" }

/-- Witness connection: bootstrapping topology, one disk. -/
def testConn : Connection :=
  { expandingCluster := false
    bootstrapEndpoint := "10.0.0.1"
    nodeEndpoint := "10.0.0.2"
    disks := Except.ok [{ deviceName := "/dev/sda", model := "ModelA", size := 256000000000 }]
    generateConfiguration := fun _ => Except.ok testResponse }

/-- Witness connection: expanding topology, one disk. -/
def testConnExpanding : Connection :=
  { testConn with expandingCluster := true }

/-- Witness connection: empty disk inventory. -/
def testConnEmpty : Connection :=
  { testConn with disks := Except.ok [] }

/-- Witness connection: failing disk inventory. -/
def testConnErr : Connection :=
  { testConn with disks := Except.error "disk query failed" }

/-- Fallback state used only to extract the result of a successful NewState run. -/
def fallbackState : State :=
  { pages := []
    opts :=
      { configVersion := ""
        machineConfig :=
          { type := MachineType.init
            networkConfig := { hostname := "" }
            kubernetesVersion := ""
            installConfig := { installImage := "", installDisk := "" } }
        clusterConfig :=
          { name := ""
            controlPlane := { endpoint := "" }
            clusterNetwork := { dnsDomain := "", cniConfig := none } } }
    conn := testConn
    cni := "" }

/-- The state NewState builds on the bootstrapping witness connection. -/
def testState : State :=
  (NewState testConstants testHumanize testDescribe testConn).toOption.getD fallbackState

/-- The state NewState builds on the expanding witness connection. -/
def testStateExpanding : State :=
  (NewState testConstants testHumanize testDescribe testConnExpanding).toOption.getD fallbackState

/-- The state NewState builds on the empty-inventory witness connection. -/
def testStateEmpty : State :=
  (NewState testConstants testHumanize testDescribe testConnEmpty).toOption.getD fallbackState

/-- Concrete humanize.ParseBytes stand-in for the DiskSize witness: inverts
testHumanize on the byte strings the witnesses use. -/
def testParseBytes : String → Except String Nat := fun s =>
  if s = "2000 B" then Except.ok 2000
  else if s = "256000000000 B" then Except.ok 256000000000
  else Except.error "invalid"

/-- Witness state for the preset-override claim: selected key "cilium" and a
previously edited CNI configuration that the preset must override. -/
def testStateCilium : State :=
  { testState with
    cni := "cilium"
    opts :=
      { testState.opts with
        clusterConfig.clusterNetwork.cniConfig :=
          some { name := "flannel", urls := ["https://example.org/old.yaml"] } } }

/-- C1: for every wizard state whose selected network-plugin key is the known
preset key "cilium", GenConfig sets the outbound request's network-plugin
configuration to exactly the preset value, name "custom" with the cilium
quick-install URL, regardless of the value previously held in that sub-field. -/
theorem genConfig_cilium_overrides (s : State) (h : s.cni = "cilium") :
    (State.GenConfig s).1.clusterConfig.clusterNetwork.cniConfig =
      some { name := "custom", urls := [ciliumURL] } := by
  unfold State.GenConfig
  rw [h]
  rfl

/-- Witness for C1 at a concrete state that previously held a different CNI
configuration. -/
theorem genConfig_cilium_overrides_witness :
    (State.GenConfig testStateCilium).1.clusterConfig.clusterNetwork.cniConfig =
      some { name := "custom", urls := [ciliumURL] } :=
  genConfig_cilium_overrides testStateCilium rfl

/-- C2: for every connection on which construction succeeds, the request's
control-plane endpoint is the string https scheme, then the bootstrap
endpoint in expanding mode or the node endpoint otherwise, then the default
control-plane port. -/
theorem newState_endpoint (c : Constants) (hb : Nat → String)
    (describe : String → String → String) (conn : Connection) (st : State)
    (h : NewState c hb describe conn = Except.ok st) :
    st.opts.clusterConfig.controlPlane.endpoint =
      "https://" ++
        (if conn.expandingCluster then conn.bootstrapEndpoint else conn.nodeEndpoint) ++
        ":" ++ toString c.defaultControlPlanePort := by
  unfold NewState at h
  cases hd : conn.disks with
  | error e => rw [hd] at h; cases h
  | ok disks =>
    rw [hd] at h
    cases hex : conn.expandingCluster <;> rw [hex] at h <;>
      cases disks <;> (injection h with h; subst h) <;> rfl

/-- Witness for C2: expanding topology with bootstrap endpoint 10.0.0.1
produces the endpoint https at 10.0.0.1 on port 6443. -/
theorem newState_endpoint_witness :
    NewState testConstants testHumanize testDescribe testConnExpanding =
      Except.ok testStateExpanding ∧
    testStateExpanding.opts.clusterConfig.controlPlane.endpoint =
      "https://10.0.0.1:6443" :=
  ⟨rfl,
   (newState_endpoint testConstants testHumanize testDescribe testConnExpanding
      testStateExpanding rfl).trans (by decide)⟩

/-- C6: for every connection whose disk-inventory query fails, NewState fails
with exactly that error and produces no state. -/
theorem newState_disks_error (c : Constants) (hb : Nat → String)
    (describe : String → String → String) (conn : Connection) (e : String)
    (h : conn.disks = Except.error e) :
    NewState c hb describe conn = Except.error e := by
  unfold NewState
  rw [h]

/-- Witness for C6 at a connection whose inventory query fails. -/
theorem newState_disks_error_witness :
    NewState testConstants testHumanize testDescribe testConnErr =
      Except.error "disk query failed" :=
  newState_disks_error testConstants testHumanize testDescribe testConnErr
    "disk query failed" rfl

/-- C7: for every wizard state whose selected network-plugin key matches no
preset-table entry, GenConfig leaves the request exactly as edited and
returns the connection's configuration-generation result verbatim. -/
theorem genConfig_no_preset (s : State) (h : cniPresets.lookup s.cni = none) :
    (State.GenConfig s).1 = s.opts ∧
    (State.GenConfig s).2 = s.conn.generateConfiguration s.opts := by
  unfold State.GenConfig
  rw [h]
  exact ⟨rfl, rfl⟩

/-- Witness for C7 at the default key "flannel", which is not in the preset
table. -/
theorem genConfig_no_preset_witness :
    testState.cni = "flannel" ∧
    (State.GenConfig testState).1 = testState.opts ∧
    (State.GenConfig testState).2 =
      testState.conn.generateConfiguration testState.opts :=
  ⟨rfl, genConfig_no_preset testState (by decide)⟩

/-- C8: for every connection on which construction succeeds, the request
carries the fixed defaults: config version v1alpha1, the default Kubernetes
version, the default install image, cluster name talos-default, and DNS
domain cluster.local. -/
theorem newState_defaults (c : Constants) (hb : Nat → String)
    (describe : String → String → String) (conn : Connection) (st : State)
    (h : NewState c hb describe conn = Except.ok st) :
    st.opts.configVersion = "v1alpha1" ∧
    st.opts.machineConfig.kubernetesVersion = c.defaultKubernetesVersion ∧
    st.opts.machineConfig.installConfig.installImage = c.defaultInstallerImage ∧
    st.opts.clusterConfig.name = "talos-default" ∧
    st.opts.clusterConfig.clusterNetwork.dnsDomain = "cluster.local" := by
  unfold NewState at h
  cases hd : conn.disks with
  | error e => rw [hd] at h; cases h
  | ok disks =>
    rw [hd] at h
    cases hex : conn.expandingCluster <;> rw [hex] at h <;>
      cases disks <;> (injection h with h; subst h) <;>
      exact ⟨rfl, rfl, rfl, rfl, rfl⟩

/-- Witness for C8 at the bootstrapping witness connection. -/
theorem newState_defaults_witness :
    testState.opts.configVersion = "v1alpha1" ∧
    testState.opts.machineConfig.kubernetesVersion = "1.20.5" ∧
    testState.opts.machineConfig.installConfig.installImage =
      "ghcr.io/talos-systems/installer:v0.9.0" ∧
    testState.opts.clusterConfig.name = "talos-default" ∧
    testState.opts.clusterConfig.clusterNetwork.dnsDomain = "cluster.local" :=
  newState_defaults testConstants testHumanize testDescribe testConn testState rfl

/-- C3: for every connection whose inventory returns at least one disk, the
install-disk default is the first disk's device name and the install-disk
choice table is exactly the header row followed by one
(deviceName, model, humanized size) triple per disk, in inventory order. -/
theorem newState_disk_table (c : Constants) (hb : Nat → String)
    (describe : String → String → String) (conn : Connection) (st : State)
    (d : Disk) (rest : List Disk) (hd : conn.disks = Except.ok (d :: rest))
    (h : NewState c hb describe conn = Except.ok st) :
    st.opts.machineConfig.installConfig.installDisk = d.deviceName ∧
    (st.findItem Binding.installDisk).map Item.options =
      some (TableEntry.headers ["device name", "model name", "size"] ::
        (d :: rest).flatMap fun dk =>
          [TableEntry.str dk.deviceName, TableEntry.str dk.model,
           TableEntry.str (hb dk.size)]) := by
  unfold NewState at h
  rw [hd] at h
  cases hex : conn.expandingCluster <;> rw [hex] at h <;>
    (injection h with h; subst h) <;> exact ⟨rfl, rfl⟩

/-- Witness for C3 at the one-disk witness connection. -/
theorem newState_disk_table_witness :
    testState.opts.machineConfig.installConfig.installDisk = "/dev/sda" ∧
    (testState.findItem Binding.installDisk).map Item.options =
      some [TableEntry.headers ["device name", "model name", "size"],
            TableEntry.str "/dev/sda", TableEntry.str "ModelA",
            TableEntry.str (testHumanize 256000000000)] :=
  newState_disk_table testConstants testHumanize testDescribe testConn testState
    { deviceName := "/dev/sda", model := "ModelA", size := 256000000000 } [] rfl rfl

/-- C4: for every connection on which construction succeeds, the machine-type
choice table and the request's machine-type default depend only on topology:
expanding mode offers worker and control plane and defaults to control plane;
bootstrapping mode offers only control plane and defaults to the init role. -/
theorem newState_machine_type (c : Constants) (hb : Nat → String)
    (describe : String → String → String) (conn : Connection) (st : State)
    (h : NewState c hb describe conn = Except.ok st) :
    (conn.expandingCluster = true →
      (st.findItem Binding.machineType).map Item.options =
        some [TableEntry.str "worker", TableEntry.machineType MachineType.join,
              TableEntry.str "control plane",
              TableEntry.machineType MachineType.controlPlane] ∧
      st.opts.machineConfig.type = MachineType.controlPlane) ∧
    (conn.expandingCluster = false →
      (st.findItem Binding.machineType).map Item.options =
        some [TableEntry.str "control plane", TableEntry.machineType MachineType.init] ∧
      st.opts.machineConfig.type = MachineType.init) := by
  unfold NewState at h
  cases hd : conn.disks with
  | error e => rw [hd] at h; cases h
  | ok disks =>
    rw [hd] at h
    cases hex : conn.expandingCluster <;> rw [hex] at h <;>
      cases disks <;> (injection h with h; subst h) <;>
      refine ⟨fun hx => ?_, fun hx => ?_⟩ <;>
      first
        | exact ⟨rfl, rfl⟩
        | simp [hex] at hx

/-- Witness for C4 on both topologies. -/
theorem newState_machine_type_witness :
    (testStateExpanding.opts.machineConfig.type = MachineType.controlPlane ∧
     (testStateExpanding.findItem Binding.machineType).map Item.options =
       some [TableEntry.str "worker", TableEntry.machineType MachineType.join,
             TableEntry.str "control plane",
             TableEntry.machineType MachineType.controlPlane]) ∧
    (testState.opts.machineConfig.type = MachineType.init ∧
     (testState.findItem Binding.machineType).map Item.options =
       some [TableEntry.str "control plane", TableEntry.machineType MachineType.init]) :=
  ⟨((newState_machine_type testConstants testHumanize testDescribe testConnExpanding
        testStateExpanding rfl).1 rfl).symm,
   ((newState_machine_type testConstants testHumanize testDescribe testConn
        testState rfl).2 rfl).symm⟩

/-- C5: for every connection on which construction succeeds, there are exactly
three pages, Installer Params, Machine Config, Network Config, with the fixed
field names and bound locations; the network-plugin choice field sits on the
Network Config page exactly when the topology is bootstrapping. -/
theorem newState_pages (c : Constants) (hb : Nat → String)
    (describe : String → String → String) (conn : Connection) (st : State)
    (h : NewState c hb describe conn = Except.ok st) :
    st.pages.map Page.title = ["Installer Params", "Machine Config", "Network Config"] ∧
    st.pages.map (fun p => p.items.map Item.name) =
      [["image", "install disk"],
       ["machine type", "cluster name", "control plane endpoint", "kubernetes version"],
       ["hostname", "dns domain"] ++ if conn.expandingCluster then [] else ["type"]] ∧
    st.pages.map (fun p => p.items.map Item.binding) =
      [[Binding.installImage, Binding.installDisk],
       [Binding.machineType, Binding.clusterName, Binding.controlPlaneEndpoint,
        Binding.kubernetesVersion],
       [Binding.hostname, Binding.dnsDomain] ++
         if conn.expandingCluster then [] else [Binding.cni]] ∧
    ((∃ p ∈ st.pages, p.title = "Network Config" ∧
        ∃ it ∈ p.items, it.binding = Binding.cni) ↔
      conn.expandingCluster = false) := by
  unfold NewState at h
  cases hd : conn.disks with
  | error e => rw [hd] at h; cases h
  | ok disks =>
    rw [hd] at h
    cases hex : conn.expandingCluster <;> rw [hex] at h <;>
      cases disks <;> (injection h with h; subst h) <;>
      refine ⟨rfl, rfl, rfl, ?_⟩ <;> simp [NewPage, NewItem]

/-- Witness for C5 at the bootstrapping witness connection. -/
theorem newState_pages_witness :
    testState.pages.map Page.title =
      ["Installer Params", "Machine Config", "Network Config"] ∧
    (∃ p ∈ testState.pages, p.title = "Network Config" ∧
      ∃ it ∈ p.items, it.binding = Binding.cni) :=
  ⟨(newState_pages testConstants testHumanize testDescribe testConn testState rfl).1,
   ((newState_pages testConstants testHumanize testDescribe testConn
       testState rfl).2.2.2).mpr rfl⟩

/-- C9: for every connection whose inventory returns an empty disk list,
construction still succeeds, the install-disk table is only the header row,
and the install-disk field keeps its zero value. -/
theorem newState_empty_disks (c : Constants) (hb : Nat → String)
    (describe : String → String → String) (conn : Connection)
    (hd : conn.disks = Except.ok []) :
    ∃ st, NewState c hb describe conn = Except.ok st ∧
      (st.findItem Binding.installDisk).map Item.options =
        some [TableEntry.headers ["device name", "model name", "size"]] ∧
      st.opts.machineConfig.installConfig.installDisk = "" := by
  unfold NewState
  rw [hd]
  cases hex : conn.expandingCluster <;> exact ⟨_, rfl, rfl, rfl⟩

/-- Witness for C9 at the empty-inventory witness connection. -/
theorem newState_empty_disks_witness :
    (testStateEmpty.findItem Binding.installDisk).map Item.options =
      some [TableEntry.headers ["device name", "model name", "size"]] ∧
    testStateEmpty.opts.machineConfig.installConfig.installDisk = "" := by
  obtain ⟨st, hst, h1, h2⟩ :=
    newState_empty_disks testConstants testHumanize testDescribe testConnEmpty rfl
  have hst2 : NewState testConstants testHumanize testDescribe testConnEmpty =
      Except.ok testStateEmpty := rfl
  have : st = testStateEmpty := by
    have := hst.symm.trans hst2
    injection this
  subst this
  exact ⟨h1, h2⟩

/-- C10: whenever DiskSize.MarshalYAML emits the human-readable string form,
parsing that string back through DiskSize.UnmarshalYAML yields exactly the
original value, for every humanize implementation. -/
theorem diskSize_marshal_roundtrip (bytesHumanize : Nat → String)
    (parseBytes : String → Except String Nat) (ds : Nat) (s : String)
    (h : DiskSize.marshalYAML bytesHumanize parseBytes ds = YAMLValue.str s) :
    DiskSize.unmarshalYAML parseBytes s = Except.ok ds := by
  unfold DiskSize.marshalYAML at h
  unfold DiskSize.unmarshalYAML
  dsimp only at h
  split at h
  · split at h
    next parsed hp =>
      split at h
      next heq =>
        injection h with h
        subst h
        rw [hp]
        simp only [beq_iff_eq] at heq
        rw [heq]
      next => cases h
    next => cases h
  · cases h

/-- Witness for C10: the witness humanizer emits a string at 2000 and
Unmarshal recovers 2000. -/
theorem diskSize_marshal_roundtrip_witness :
    DiskSize.unmarshalYAML testParseBytes "2000 B" = Except.ok 2000 :=
  diskSize_marshal_roundtrip testHumanize testParseBytes 2000 "2000 B" (by decide)

end Talos
